import Mathlib

/-!
Verification of the tool dispatch and request/response translation layer of an
MCP server for Elasticsearch (package `tools`, with the response-status logic
of package `elasticsearch` where claims depend on it).

The argument bag delivered by the MCP transport is a Go `map[string]any`
produced by `encoding/json` decoding (see `registerTools`, which registers the
handlers with parameter type `mcp.CallToolParamsFor[map[string]any]`).  We model
such a value by the inductive `GoVal` below.  `encoding/json` decodes JSON
numbers into Go `float64`; the constructor `GoVal.int` models a Go `int64`
value, which can inhabit a `map[string]any` in general but is never produced by
JSON decoding — it is kept so that the type switches of the source translate
one-to-one.
-/

namespace McpEs

/-- Model of a Go `interface{}` value held in the decoded argument map.
Numbers are modelled by rationals: every JSON number that `encoding/json`
decodes exactly into a `float64` is a rational, and the claims only involve
such numbers. -/
inductive GoVal where
  | str (s : String)
  | num (x : ℚ)
  | int (n : Int)
  | bool (b : Bool)
  | arr (elems : List GoVal)
  | obj (fields : List (String × GoVal))
  | null
deriving Repr

/-- Go type assertion `v.(string)`. -/
def GoVal.asString : GoVal → Option String
  | .str s => some s
  | _ => none

/-- Go type assertion `v.(float64)`. -/
def GoVal.asFloat64 : GoVal → Option ℚ
  | .num x => some x
  | _ => none

/-- Go type assertion `v.(int64)`. -/
def GoVal.asInt64 : GoVal → Option Int
  | .int n => some n
  | _ => none

/-- Go type assertion `v.(map[string]interface\x7b\x7d)`. -/
def GoVal.asObj : GoVal → Option (List (String × GoVal))
  | .obj f => some f
  | _ => none

/-- Go type assertion `v.([]interface\x7b\x7d)`. -/
def GoVal.asArr : GoVal → Option (List GoVal)
  | .arr e => some e
  | _ => none

/-- The argument map of a tool call (`map[string]interface\x7b\x7d`); keys are
unique in a Go map, lookup is `List.lookup`. -/
abbrev Args := List (String × GoVal)

/-- Go conversion `int(x)` from `float64`: truncation toward zero.
`Int.div` is T-division (truncation toward zero), and `x.num / x.den` is the
exact value of the rational. -/
def truncToInt (x : ℚ) : Int := Int.tdiv x.num (x.den : Int)

/-- `mcp.CallToolResult`: the uniform result envelope.  `Content` holds the
texts of the `TextContent` entries. -/
structure CallToolResult where
  Content : List String
  StructuredContent : Option GoVal := none
  IsError : Bool
deriving Repr

/-- `elasticsearch.SearchRequest` (types.go).  The Go field `Sort` is named
`Sort_` here because Lean reserves `Sort`. -/
structure SearchRequest where
  Index : String
  Query : List (String × GoVal)
  Size : Int
  From : Int
  Sort_ : Option (List GoVal)
  Source : Option GoVal
deriving Repr

/-- `elasticsearch.BulkOperation` (types.go).  The Go field `Type` is named
`Type_` here because Lean reserves `Type`.  `Body = none` models a nil map. -/
structure BulkOperation where
  Operation : String
  Index : String
  Type_ : String
  ID : String
  Body : Option (List (String × GoVal))
deriving Repr

/-- The zero value of `elasticsearch.BulkOperation`. -/
def zeroBulkOperation : BulkOperation :=
  { Operation := "", Index := "", Type_ := "", ID := "", Body := none }

/-- One invocation of an Engine Client operation, recording the operation and
the arguments passed to it.  Handlers below return the list of invocations
they perform (their engine-call trace) next to the result envelope. -/
inductive EngineCall where
  | info
  | health
  | createIndex (index : String) (body : List (String × GoVal))
  | deleteIndex (index : String)
  | indexExists (index : String)
  | listIndices
  | indexDoc (index id : String) (body : List (String × GoVal))
  | getDoc (index id : String)
  | updateDoc (index id : String) (body : List (String × GoVal))
  | deleteDoc (index id : String)
  | search (req : SearchRequest)
  | bulk (ops : List BulkOperation)
deriving Repr

/-- The `elasticsearch.Client` interface, modelled as a record of pure stubs:
each operation returns either an error message or a typed response.  Response
payloads whose structure the claims do not inspect are modelled as `GoVal`. -/
structure Client where
  Info : Except String GoVal
  Health : Except String GoVal
  CreateIndex : String → List (String × GoVal) → Except String Unit
  DeleteIndex : String → Except String Unit
  IndexExists : String → Except String Bool
  ListIndices : Except String (List GoVal)
  Index : String → String → List (String × GoVal) → Except String GoVal
  Get : String → String → Except String GoVal
  Update : String → String → List (String × GoVal) → Except String Unit
  Delete : String → String → Except String Unit
  Search : SearchRequest → Except String GoVal
  Bulk : List BulkOperation → Except String GoVal

/-- `createErrorResult` (tools.go): standardized error envelope. -/
def createErrorResult (message : String) : CallToolResult :=
  { Content := ["Error: " ++ message], IsError := true }

/-- `createSuccessResult` (tools.go): success envelope with structured data.
The Go type switch wraps slice payloads (`[]interface\x7b\x7d` and `[]string`,
both modelled by `GoVal.arr`) as an object with `data` and `count` fields. -/
def createSuccessResult (text : String) (data : Option GoVal) : CallToolResult :=
  match data with
  | none => { Content := [text], IsError := false }
  | some (.arr v) =>
      { Content := [text],
        StructuredContent :=
          some (.obj [("data", .arr v), ("count", .num ((v.length : Int) : ℚ))]),
        IsError := false }
  | some d => { Content := [text], StructuredContent := some d, IsError := false }

/-- `createSimpleSuccessResult` (tools.go): text-only success envelope. -/
def createSimpleSuccessResult (text : String) : CallToolResult :=
  { Content := [text], IsError := false }

/-- `handleClusterInfo` (tools.go). -/
def handleClusterInfo (et : Client) : CallToolResult × List EngineCall :=
  match et.Info with
  | .error err => (createErrorResult ("Failed to get cluster info: " ++ err), [.info])
  | .ok info => (createSuccessResult "Cluster info retrieved successfully" (some info), [.info])

/-- `handleClusterHealth` (tools.go). -/
def handleClusterHealth (et : Client) : CallToolResult × List EngineCall :=
  match et.Health with
  | .error err => (createErrorResult ("Failed to get cluster health: " ++ err), [.health])
  | .ok health =>
      (createSuccessResult "Cluster health retrieved successfully" (some health), [.health])

/-- `handleIndexCreate` (tools.go): requires a string `index`; optional
`settings` and `mappings` are added to the request body only when they are
present as objects. -/
def handleIndexCreate (et : Client) (args : Args) : CallToolResult × List EngineCall :=
  match (args.lookup "index").bind GoVal.asString with
  | none => (createErrorResult "Missing or invalid 'index' parameter", [])
  | some index =>
      let body : List (String × GoVal) :=
        (match (args.lookup "settings").bind GoVal.asObj with
          | some settingsMap => [("settings", GoVal.obj settingsMap)]
          | none => []) ++
        (match (args.lookup "mappings").bind GoVal.asObj with
          | some mappingsMap => [("mappings", GoVal.obj mappingsMap)]
          | none => [])
      match et.CreateIndex index body with
      | .error err =>
          (createErrorResult ("Failed to create index: " ++ err), [.createIndex index body])
      | .ok _ =>
          (createSimpleSuccessResult ("Index '" ++ index ++ "' created successfully"),
            [.createIndex index body])

/-- `handleIndexDelete` (tools.go). -/
def handleIndexDelete (et : Client) (args : Args) : CallToolResult × List EngineCall :=
  match (args.lookup "index").bind GoVal.asString with
  | none => (createErrorResult "Missing or invalid 'index' parameter", [])
  | some index =>
      match et.DeleteIndex index with
      | .error err => (createErrorResult ("Failed to delete index: " ++ err), [.deleteIndex index])
      | .ok _ =>
          (createSimpleSuccessResult ("Index '" ++ index ++ "' deleted successfully"),
            [.deleteIndex index])

/-- `handleIndexExists` (tools.go). -/
def handleIndexExists (et : Client) (args : Args) : CallToolResult × List EngineCall :=
  match (args.lookup "index").bind GoVal.asString with
  | none => (createErrorResult "Missing or invalid 'index' parameter", [])
  | some index =>
      match et.IndexExists index with
      | .error err =>
          (createErrorResult ("Failed to check index existence: " ++ err), [.indexExists index])
      | .ok exists_ =>
          (createSuccessResult
            ("Index '" ++ index ++ "' exists: " ++ (if exists_ then "true" else "false"))
            (some (.obj [("index", .str index), ("exists", .bool exists_)])),
            [.indexExists index])

/-- `handleIndexList` (tools.go): wraps the indices in a map with an `indices`
field and a `count` field equal to their number. -/
def handleIndexList (et : Client) : CallToolResult × List EngineCall :=
  match et.ListIndices with
  | .error err => (createErrorResult ("Failed to list indices: " ++ err), [.listIndices])
  | .ok indices =>
      (createSuccessResult ("Found " ++ toString indices.length ++ " indices")
        (some (.obj [("indices", .arr indices),
                     ("count", .num ((indices.length : Int) : ℚ))])),
        [.listIndices])

/-- `handleDocumentIndex` (tools.go): requires string `index` and object
`body`; `id` is optional (the failed type assertion leaves the empty string). -/
def handleDocumentIndex (et : Client) (args : Args) : CallToolResult × List EngineCall :=
  match (args.lookup "index").bind GoVal.asString with
  | none => (createErrorResult "Missing or invalid 'index' parameter", [])
  | some index =>
      match (args.lookup "body").bind GoVal.asObj with
      | none => (createErrorResult "Missing or invalid 'body' parameter", [])
      | some body =>
          let id := ((args.lookup "id").bind GoVal.asString).getD ""
          match et.Index index id body with
          | .error err =>
              (createErrorResult ("Failed to index document: " ++ err), [.indexDoc index id body])
          | .ok result =>
              (createSuccessResult "Document indexed successfully" (some result),
                [.indexDoc index id body])

/-- `handleDocumentGet` (tools.go). -/
def handleDocumentGet (et : Client) (args : Args) : CallToolResult × List EngineCall :=
  match (args.lookup "index").bind GoVal.asString with
  | none => (createErrorResult "Missing or invalid 'index' parameter", [])
  | some index =>
      match (args.lookup "id").bind GoVal.asString with
      | none => (createErrorResult "Missing or invalid 'id' parameter", [])
      | some id =>
          match et.Get index id with
          | .error err =>
              (createErrorResult ("Failed to get document: " ++ err), [.getDoc index id])
          | .ok result =>
              (createSuccessResult "Document retrieved successfully" (some result),
                [.getDoc index id])

/-- `handleDocumentUpdate` (tools.go). -/
def handleDocumentUpdate (et : Client) (args : Args) : CallToolResult × List EngineCall :=
  match (args.lookup "index").bind GoVal.asString with
  | none => (createErrorResult "Missing or invalid 'index' parameter", [])
  | some index =>
      match (args.lookup "id").bind GoVal.asString with
      | none => (createErrorResult "Missing or invalid 'id' parameter", [])
      | some id =>
          match (args.lookup "body").bind GoVal.asObj with
          | none => (createErrorResult "Missing or invalid 'body' parameter", [])
          | some body =>
              match et.Update index id body with
              | .error err =>
                  (createErrorResult ("Failed to update document: " ++ err),
                    [.updateDoc index id body])
              | .ok _ =>
                  (createSimpleSuccessResult
                    ("Document '" ++ id ++ "' updated successfully in index '" ++ index ++ "'"),
                    [.updateDoc index id body])

/-- `handleDocumentDelete` (tools.go). -/
def handleDocumentDelete (et : Client) (args : Args) : CallToolResult × List EngineCall :=
  match (args.lookup "index").bind GoVal.asString with
  | none => (createErrorResult "Missing or invalid 'index' parameter", [])
  | some index =>
      match (args.lookup "id").bind GoVal.asString with
      | none => (createErrorResult "Missing or invalid 'id' parameter", [])
      | some id =>
          match et.Delete index id with
          | .error err =>
              (createErrorResult ("Failed to delete document: " ++ err), [.deleteDoc index id])
          | .ok _ =>
              (createSimpleSuccessResult
                ("Document '" ++ id ++ "' deleted successfully from index '" ++ index ++ "'"),
                [.deleteDoc index id])

/-- The default query of `handleSearch`: match-all. -/
def matchAllQuery : List (String × GoVal) := [("match_all", GoVal.obj [])]

/-- `handleSearch` (tools.go).  All parameters are optional.  `size` is read
through a `float64` type assertion and truncated with `int(...)`; `from` is
read through an `int64` type assertion (which a JSON-decoded argument never
satisfies, since `encoding/json` produces `float64` for every number). -/
def handleSearch (et : Client) (args : Args) : CallToolResult × List EngineCall :=
  let index := ((args.lookup "index").bind GoVal.asString).getD ""
  let query :=
    match (args.lookup "query").bind GoVal.asObj with
    | some queryMap => queryMap
    | none => matchAllQuery
  let size : Int :=
    match (args.lookup "size").bind GoVal.asFloat64 with
    | some sizeFloat => truncToInt sizeFloat
    | none => 10
  let from_ : Int :=
    match (args.lookup "from").bind GoVal.asInt64 with
    | some fromInt => fromInt
    | none => 0
  let sort := (args.lookup "sort").bind GoVal.asArr
  let source := args.lookup "_source"
  let searchRequest : SearchRequest :=
    { Index := index, Query := query, Size := size, From := from_,
      Sort_ := sort, Source := source }
  match et.Search searchRequest with
  | .error err =>
      (createErrorResult ("Failed to execute search: " ++ err), [.search searchRequest])
  | .ok result =>
      (createSuccessResult "Search executed successfully" (some result), [.search searchRequest])

/-- One known field of the JSON encoding of `BulkOperation`, decoded as
`json.Unmarshal` does for a `string`-typed struct field: a missing key or a
JSON null leaves the zero value, a string sets the field, any other type is an
unmarshal error (modelled as `none`). -/
def decodeStringField (m : List (String × GoVal)) (key : String) : Option String :=
  match m.lookup key with
  | none => some ""
  | some (.str s) => some s
  | some .null => some ""
  | some _ => none

/-- The `body` field of `BulkOperation` (`map[string]interface\x7b\x7d`):
missing or null leaves nil, an object sets it, any other type is an unmarshal
error. -/
def decodeObjField (m : List (String × GoVal)) (key : String) :
    Option (Option (List (String × GoVal))) :=
  match m.lookup key with
  | none => some none
  | some (.obj f) => some (some f)
  | some .null => some none
  | some _ => none

/-- `json.Unmarshal(json.Marshal(opMap), &bulkOp)` for the struct
`BulkOperation` with tags `operation`, `index`, `type`, `id`, `body`; `none`
models an unmarshal error.  (Keys other than the five tags are ignored;
the exotic case-insensitive fallback matching of `encoding/json` is not
modelled — every claim uses the exact lowercase tags.) -/
def decodeBulkOperation (m : List (String × GoVal)) : Option BulkOperation :=
  match decodeStringField m "operation", decodeStringField m "index",
        decodeStringField m "type", decodeStringField m "id", decodeObjField m "body" with
  | some operation, some index, some type_, some id, some body =>
      some { Operation := operation, Index := index, Type_ := type_, ID := id, Body := body }
  | _, _, _, _, _ => none

/-- The per-element conversion of `handleBulk` (tools.go): an element that is
not a map, or whose marshal/unmarshal round-trip fails, leaves the zero
`BulkOperation` at its position; nothing aborts the batch. -/
def toBulkOp (op : GoVal) : BulkOperation :=
  match op.asObj with
  | none => zeroBulkOperation
  | some opMap => (decodeBulkOperation opMap).getD zeroBulkOperation

/-- `handleBulk` (tools.go): requires an `operations` array; every element is
converted with `toBulkOp` and the whole batch is handed to the engine. -/
def handleBulk (et : Client) (args : Args) : CallToolResult × List EngineCall :=
  match (args.lookup "operations").bind GoVal.asArr with
  | none => (createErrorResult "Missing or invalid 'operations' parameter", [])
  | some operations =>
      let bulkOps := operations.map toBulkOp
      match et.Bulk bulkOps with
      | .error err =>
          (createErrorResult ("Failed to execute bulk operations: " ++ err), [.bulk bulkOps])
      | .ok result =>
          (createSuccessResult "Bulk operations executed successfully" (some result),
            [.bulk bulkOps])

/-- `HandleTool` (tools.go): routes a tool call to its handler; an unknown
name yields the error envelope.  The Go `switch` over the name is a sequential
comparison against the twelve registered names. -/
def HandleTool (et : Client) (toolName : String) (arguments : Args) :
    CallToolResult × List EngineCall :=
  if toolName = "es_cluster_info" then handleClusterInfo et
  else if toolName = "es_cluster_health" then handleClusterHealth et
  else if toolName = "es_index_create" then handleIndexCreate et arguments
  else if toolName = "es_index_delete" then handleIndexDelete et arguments
  else if toolName = "es_index_exists" then handleIndexExists et arguments
  else if toolName = "es_index_list" then handleIndexList et
  else if toolName = "es_document_index" then handleDocumentIndex et arguments
  else if toolName = "es_document_get" then handleDocumentGet et arguments
  else if toolName = "es_document_update" then handleDocumentUpdate et arguments
  else if toolName = "es_document_delete" then handleDocumentDelete et arguments
  else if toolName = "es_search" then handleSearch et arguments
  else if toolName = "es_bulk" then handleBulk et arguments
  else (createErrorResult ("Unknown tool: " ++ toolName), [])

/-- The names of the tools registered in the catalog (`GetTools`, tools.go). -/
def toolNames : List String :=
  ["es_cluster_info", "es_cluster_health", "es_index_create", "es_index_delete",
   "es_index_exists", "es_index_list", "es_document_index", "es_document_get",
   "es_document_update", "es_document_delete", "es_search", "es_bulk"]

/-- An `esapi.Response` as the `ESClient` methods inspect it: the HTTP status
code, the textual rendering `res.String()` used in error messages, and the
decoded JSON body (modelled as already parsed). -/
structure EsapiResponse where
  StatusCode : Nat
  BodyText : String := ""
  BodyJson : GoVal := .null

/-- `esapi` response `IsError()`: a status code above 299. -/
def EsapiResponse.IsError (res : EsapiResponse) : Bool := 299 < res.StatusCode

namespace ESClient

/-- `ESClient.DeleteIndex` (the elasticsearch client file), as a function of
the transport outcome: a transport error is wrapped; an error response is
reported unless its status is 404, which is treated as success. -/
def DeleteIndex (res : Except String EsapiResponse) : Except String Unit :=
  match res with
  | .error err => .error ("failed to delete index: " ++ err)
  | .ok res =>
      if res.IsError ∧ res.StatusCode ≠ 404 then
        .error ("elasticsearch error: " ++ res.BodyText)
      else .ok ()

/-- `ESClient.Delete` (document deletion): same not-found suppression as
index deletion — an error response with status 404 is success. -/
def Delete (res : Except String EsapiResponse) : Except String Unit :=
  match res with
  | .error err => .error ("failed to delete document: " ++ err)
  | .ok res =>
      if res.IsError ∧ res.StatusCode ≠ 404 then
        .error ("elasticsearch error: " ++ res.BodyText)
      else .ok ()

/-- `ESClient.Get` (document retrieval): a 404 response is the error
`document not found`; other error responses are reported; a success response
yields the decoded body. -/
def Get (res : Except String EsapiResponse) : Except String GoVal :=
  match res with
  | .error err => .error ("failed to get document: " ++ err)
  | .ok res =>
      if res.IsError then
        if res.StatusCode = 404 then .error "document not found"
        else .error ("elasticsearch error: " ++ res.BodyText)
      else .ok res.BodyJson

end ESClient

/-- A stub Engine Client on which every operation succeeds with a neutral
response. -/
def okClient : Client where
  Info := .ok .null
  Health := .ok .null
  CreateIndex := fun _ _ => .ok ()
  DeleteIndex := fun _ => .ok ()
  IndexExists := fun _ => .ok true
  ListIndices := .ok []
  Index := fun _ _ _ => .ok .null
  Get := fun _ _ => .ok .null
  Update := fun _ _ _ => .ok ()
  Delete := fun _ _ => .ok ()
  Search := fun _ => .ok .null
  Bulk := fun _ => .ok .null

/-- A stub Engine Client on which every operation fails with the message `e`. -/
def errClient (e : String) : Client where
  Info := .error e
  Health := .error e
  CreateIndex := fun _ _ => .error e
  DeleteIndex := fun _ => .error e
  IndexExists := fun _ => .error e
  ListIndices := .error e
  Index := fun _ _ _ => .error e
  Get := fun _ _ => .error e
  Update := fun _ _ _ => .error e
  Delete := fun _ _ => .error e
  Search := fun _ => .error e
  Bulk := fun _ => .error e

/-- A 404 response from the engine. -/
def resp404 : EsapiResponse := { StatusCode := 404, BodyText := "404 Not Found" }

/-- A stub Engine Client whose deletion and retrieval operations behave as the
`ESClient` methods do on a 404 response from the engine. -/
def notFound404Client : Client :=
  { okClient with
      DeleteIndex := fun _ => ESClient.DeleteIndex (.ok resp404)
      Delete := fun _ _ => ESClient.Delete (.ok resp404)
      Get := fun _ _ => ESClient.Get (.ok resp404) }

/-- The shape a schema assigns to a field. -/
inductive FieldShape where
  | string
  | object
  | array

/-- Whether a looked-up argument value is present and of the given shape. -/
def shapeOk : Option GoVal → FieldShape → Bool
  | some (.str _), .string => true
  | some (.obj _), .object => true
  | some (.arr _), .array => true
  | _, _ => false

/-- The required fields of each tool and their expected shapes, as the Tool
Catalog (`GetTools`) declares them in each input schema's `Required` list. -/
def requiredSpec (tool : String) : List (String × FieldShape) :=
  if tool = "es_index_create" then [("index", .string)]
  else if tool = "es_index_delete" then [("index", .string)]
  else if tool = "es_index_exists" then [("index", .string)]
  else if tool = "es_document_index" then [("index", .string), ("body", .object)]
  else if tool = "es_document_get" then [("index", .string), ("id", .string)]
  else if tool = "es_document_update" then
    [("index", .string), ("id", .string), ("body", .object)]
  else if tool = "es_document_delete" then [("index", .string), ("id", .string)]
  else if tool = "es_bulk" then [("operations", .array)]
  else []

/-- The field `p` is missing from the argument map or present with the wrong
shape. -/
def badField (args : Args) (p : String × FieldShape) : Bool :=
  !(shapeOk (args.lookup p.1) p.2)

/-- The summary text of a result envelope (the text of its first content
entry). -/
def summaryText (r : CallToolResult) : String := r.Content.headD ""

/-- `needle` occurs contiguously inside `hay`. -/
def textContains (hay needle : String) : Prop :=
  ∃ pre post : String, hay = pre ++ needle ++ post

/-- A stub Engine Client that reports exactly one index. -/
def listClient : Client := { okClient with ListIndices := .ok [GoVal.null] }

/-!  Helper lemmas: relating the schema-shape table to the type assertions the
handlers perform, and reducing each handler on its error paths. -/

lemma shapeOk_string_false {o : Option GoVal} (h : shapeOk o FieldShape.string = false) :
    o.bind GoVal.asString = none := by
  cases o with
  | none => rfl
  | some v => cases v <;> simp_all [shapeOk, GoVal.asString]

lemma shapeOk_string_true {o : Option GoVal} (h : shapeOk o FieldShape.string = true) :
    ∃ s, o.bind GoVal.asString = some s := by
  cases o with
  | none => simp [shapeOk] at h
  | some v => cases v <;> simp_all [shapeOk, GoVal.asString]

lemma shapeOk_object_false {o : Option GoVal} (h : shapeOk o FieldShape.object = false) :
    o.bind GoVal.asObj = none := by
  cases o with
  | none => rfl
  | some v => cases v <;> simp_all [shapeOk, GoVal.asObj]

lemma shapeOk_object_true {o : Option GoVal} (h : shapeOk o FieldShape.object = true) :
    ∃ m, o.bind GoVal.asObj = some m := by
  cases o with
  | none => simp [shapeOk] at h
  | some v => cases v <;> simp_all [shapeOk, GoVal.asObj]

lemma shapeOk_array_false {o : Option GoVal} (h : shapeOk o FieldShape.array = false) :
    o.bind GoVal.asArr = none := by
  cases o with
  | none => rfl
  | some v => cases v <;> simp_all [shapeOk, GoVal.asArr]

lemma createSuccessResult_isError (text : String) (data : Option GoVal) :
    (createSuccessResult text data).IsError = false := by
  unfold createSuccessResult
  split <;> rfl

lemma handleTool_unknown (et : Client) (toolName : String) (args : Args)
    (h : toolName ∉ toolNames) :
    HandleTool et toolName args = (createErrorResult ("Unknown tool: " ++ toolName), []) := by
  simp [toolNames] at h
  obtain ⟨h1, h2, h3, h4, h5, h6, h7, h8, h9, h10, h11, h12⟩ := h
  simp [HandleTool, h1, h2, h3, h4, h5, h6, h7, h8, h9, h10, h11, h12]

lemma handleIndexCreate_noIndex (et : Client) (args : Args)
    (h : (args.lookup "index").bind GoVal.asString = none) :
    handleIndexCreate et args = (createErrorResult "Missing or invalid 'index' parameter", []) := by
  simp [handleIndexCreate, h]

lemma handleIndexDelete_noIndex (et : Client) (args : Args)
    (h : (args.lookup "index").bind GoVal.asString = none) :
    handleIndexDelete et args = (createErrorResult "Missing or invalid 'index' parameter", []) := by
  simp [handleIndexDelete, h]

lemma handleIndexExists_noIndex (et : Client) (args : Args)
    (h : (args.lookup "index").bind GoVal.asString = none) :
    handleIndexExists et args = (createErrorResult "Missing or invalid 'index' parameter", []) := by
  simp [handleIndexExists, h]

lemma handleDocumentIndex_noIndex (et : Client) (args : Args)
    (h : (args.lookup "index").bind GoVal.asString = none) :
    handleDocumentIndex et args =
      (createErrorResult "Missing or invalid 'index' parameter", []) := by
  simp [handleDocumentIndex, h]

lemma handleDocumentIndex_noBody (et : Client) (args : Args) {s : String}
    (hs : (args.lookup "index").bind GoVal.asString = some s)
    (h : (args.lookup "body").bind GoVal.asObj = none) :
    handleDocumentIndex et args =
      (createErrorResult "Missing or invalid 'body' parameter", []) := by
  simp [handleDocumentIndex, hs, h]

lemma handleDocumentGet_noIndex (et : Client) (args : Args)
    (h : (args.lookup "index").bind GoVal.asString = none) :
    handleDocumentGet et args = (createErrorResult "Missing or invalid 'index' parameter", []) := by
  simp [handleDocumentGet, h]

lemma handleDocumentGet_noId (et : Client) (args : Args) {s : String}
    (hs : (args.lookup "index").bind GoVal.asString = some s)
    (h : (args.lookup "id").bind GoVal.asString = none) :
    handleDocumentGet et args = (createErrorResult "Missing or invalid 'id' parameter", []) := by
  simp [handleDocumentGet, hs, h]

lemma handleDocumentUpdate_noIndex (et : Client) (args : Args)
    (h : (args.lookup "index").bind GoVal.asString = none) :
    handleDocumentUpdate et args =
      (createErrorResult "Missing or invalid 'index' parameter", []) := by
  simp [handleDocumentUpdate, h]

lemma handleDocumentUpdate_noId (et : Client) (args : Args) {s : String}
    (hs : (args.lookup "index").bind GoVal.asString = some s)
    (h : (args.lookup "id").bind GoVal.asString = none) :
    handleDocumentUpdate et args =
      (createErrorResult "Missing or invalid 'id' parameter", []) := by
  simp [handleDocumentUpdate, hs, h]

lemma handleDocumentUpdate_noBody (et : Client) (args : Args) {s sid : String}
    (hs : (args.lookup "index").bind GoVal.asString = some s)
    (hid : (args.lookup "id").bind GoVal.asString = some sid)
    (h : (args.lookup "body").bind GoVal.asObj = none) :
    handleDocumentUpdate et args =
      (createErrorResult "Missing or invalid 'body' parameter", []) := by
  simp [handleDocumentUpdate, hs, hid, h]

lemma handleDocumentDelete_noIndex (et : Client) (args : Args)
    (h : (args.lookup "index").bind GoVal.asString = none) :
    handleDocumentDelete et args =
      (createErrorResult "Missing or invalid 'index' parameter", []) := by
  simp [handleDocumentDelete, h]

lemma handleDocumentDelete_noId (et : Client) (args : Args) {s : String}
    (hs : (args.lookup "index").bind GoVal.asString = some s)
    (h : (args.lookup "id").bind GoVal.asString = none) :
    handleDocumentDelete et args =
      (createErrorResult "Missing or invalid 'id' parameter", []) := by
  simp [handleDocumentDelete, hs, h]

lemma handleBulk_noOps (et : Client) (args : Args)
    (h : (args.lookup "operations").bind GoVal.asArr = none) :
    handleBulk et args = (createErrorResult "Missing or invalid 'operations' parameter", []) := by
  simp [handleBulk, h]

lemma handleClusterInfo_trace (et : Client) : (handleClusterInfo et).2 = [.info] := by
  cases h : et.Info <;> simp [handleClusterInfo, h]

lemma handleClusterHealth_trace (et : Client) : (handleClusterHealth et).2 = [.health] := by
  cases h : et.Health <;> simp [handleClusterHealth, h]

lemma handleIndexList_trace (et : Client) : (handleIndexList et).2 = [.listIndices] := by
  cases h : et.ListIndices <;> simp [handleIndexList, h]

lemma handleSearch_trace_ne (et : Client) (args : Args) : (handleSearch et args).2 ≠ [] := by
  simp only [handleSearch]
  split <;> simp

lemma handleIndexCreate_translationOnly (et : Client) (args : Args)
    (h : (handleIndexCreate et args).2 = []) :
    ∃ f, handleIndexCreate et args =
      (createErrorResult ("Missing or invalid '" ++ f ++ "' parameter"), []) := by
  rcases hx : (args.lookup "index").bind GoVal.asString with _ | s
  · exact ⟨"index", handleIndexCreate_noIndex et args hx⟩
  · exfalso
    simp [handleIndexCreate, hx] at h
    split at h <;> simp_all

lemma handleIndexDelete_translationOnly (et : Client) (args : Args)
    (h : (handleIndexDelete et args).2 = []) :
    ∃ f, handleIndexDelete et args =
      (createErrorResult ("Missing or invalid '" ++ f ++ "' parameter"), []) := by
  rcases hx : (args.lookup "index").bind GoVal.asString with _ | s
  · exact ⟨"index", handleIndexDelete_noIndex et args hx⟩
  · exfalso
    simp [handleIndexDelete, hx] at h
    split at h <;> simp_all

lemma handleIndexExists_translationOnly (et : Client) (args : Args)
    (h : (handleIndexExists et args).2 = []) :
    ∃ f, handleIndexExists et args =
      (createErrorResult ("Missing or invalid '" ++ f ++ "' parameter"), []) := by
  rcases hx : (args.lookup "index").bind GoVal.asString with _ | s
  · exact ⟨"index", handleIndexExists_noIndex et args hx⟩
  · exfalso
    simp [handleIndexExists, hx] at h
    split at h <;> simp_all

lemma handleDocumentIndex_translationOnly (et : Client) (args : Args)
    (h : (handleDocumentIndex et args).2 = []) :
    ∃ f, handleDocumentIndex et args =
      (createErrorResult ("Missing or invalid '" ++ f ++ "' parameter"), []) := by
  rcases hx : (args.lookup "index").bind GoVal.asString with _ | s
  · exact ⟨"index", handleDocumentIndex_noIndex et args hx⟩
  · rcases hy : (args.lookup "body").bind GoVal.asObj with _ | b
    · exact ⟨"body", handleDocumentIndex_noBody et args hx hy⟩
    · exfalso
      simp [handleDocumentIndex, hx, hy] at h
      split at h <;> simp_all

lemma handleDocumentGet_translationOnly (et : Client) (args : Args)
    (h : (handleDocumentGet et args).2 = []) :
    ∃ f, handleDocumentGet et args =
      (createErrorResult ("Missing or invalid '" ++ f ++ "' parameter"), []) := by
  rcases hx : (args.lookup "index").bind GoVal.asString with _ | s
  · exact ⟨"index", handleDocumentGet_noIndex et args hx⟩
  · rcases hy : (args.lookup "id").bind GoVal.asString with _ | sid
    · exact ⟨"id", handleDocumentGet_noId et args hx hy⟩
    · exfalso
      simp [handleDocumentGet, hx, hy] at h
      split at h <;> simp_all

lemma handleDocumentUpdate_translationOnly (et : Client) (args : Args)
    (h : (handleDocumentUpdate et args).2 = []) :
    ∃ f, handleDocumentUpdate et args =
      (createErrorResult ("Missing or invalid '" ++ f ++ "' parameter"), []) := by
  rcases hx : (args.lookup "index").bind GoVal.asString with _ | s
  · exact ⟨"index", handleDocumentUpdate_noIndex et args hx⟩
  · rcases hy : (args.lookup "id").bind GoVal.asString with _ | sid
    · exact ⟨"id", handleDocumentUpdate_noId et args hx hy⟩
    · rcases hz : (args.lookup "body").bind GoVal.asObj with _ | b
      · exact ⟨"body", handleDocumentUpdate_noBody et args hx hy hz⟩
      · exfalso
        simp [handleDocumentUpdate, hx, hy, hz] at h
        split at h <;> simp_all

lemma handleDocumentDelete_translationOnly (et : Client) (args : Args)
    (h : (handleDocumentDelete et args).2 = []) :
    ∃ f, handleDocumentDelete et args =
      (createErrorResult ("Missing or invalid '" ++ f ++ "' parameter"), []) := by
  rcases hx : (args.lookup "index").bind GoVal.asString with _ | s
  · exact ⟨"index", handleDocumentDelete_noIndex et args hx⟩
  · rcases hy : (args.lookup "id").bind GoVal.asString with _ | sid
    · exact ⟨"id", handleDocumentDelete_noId et args hx hy⟩
    · exfalso
      simp [handleDocumentDelete, hx, hy] at h
      split at h <;> simp_all

lemma handleBulk_translationOnly (et : Client) (args : Args)
    (h : (handleBulk et args).2 = []) :
    ∃ f, handleBulk et args =
      (createErrorResult ("Missing or invalid '" ++ f ++ "' parameter"), []) := by
  rcases hx : (args.lookup "operations").bind GoVal.asArr with _ | ops
  · exact ⟨"operations", handleBulk_noOps et args hx⟩
  · exfalso
    simp [handleBulk, hx] at h
    split at h <;> simp_all

lemma handleClusterInfo_errClient (e : String) :
    (handleClusterInfo (errClient e)).1.IsError = true := by
  simp [handleClusterInfo, errClient, createErrorResult]

lemma handleClusterHealth_errClient (e : String) :
    (handleClusterHealth (errClient e)).1.IsError = true := by
  simp [handleClusterHealth, errClient, createErrorResult]

lemma handleIndexList_errClient (e : String) :
    (handleIndexList (errClient e)).1.IsError = true := by
  simp [handleIndexList, errClient, createErrorResult]

lemma handleIndexCreate_errClient (e : String) (args : Args) :
    (handleIndexCreate (errClient e) args).1.IsError = true := by
  rcases hx : (args.lookup "index").bind GoVal.asString with _ | s
  · simp [handleIndexCreate, hx, createErrorResult]
  · simp [handleIndexCreate, hx, errClient, createErrorResult]

lemma handleIndexDelete_errClient (e : String) (args : Args) :
    (handleIndexDelete (errClient e) args).1.IsError = true := by
  rcases hx : (args.lookup "index").bind GoVal.asString with _ | s
  · simp [handleIndexDelete, hx, createErrorResult]
  · simp [handleIndexDelete, hx, errClient, createErrorResult]

lemma handleIndexExists_errClient (e : String) (args : Args) :
    (handleIndexExists (errClient e) args).1.IsError = true := by
  rcases hx : (args.lookup "index").bind GoVal.asString with _ | s
  · simp [handleIndexExists, hx, createErrorResult]
  · simp [handleIndexExists, hx, errClient, createErrorResult]

lemma handleDocumentIndex_errClient (e : String) (args : Args) :
    (handleDocumentIndex (errClient e) args).1.IsError = true := by
  rcases hx : (args.lookup "index").bind GoVal.asString with _ | s
  · simp [handleDocumentIndex, hx, createErrorResult]
  · rcases hy : (args.lookup "body").bind GoVal.asObj with _ | b
    · simp [handleDocumentIndex, hx, hy, createErrorResult]
    · simp [handleDocumentIndex, hx, hy, errClient, createErrorResult]

lemma handleDocumentGet_errClient (e : String) (args : Args) :
    (handleDocumentGet (errClient e) args).1.IsError = true := by
  rcases hx : (args.lookup "index").bind GoVal.asString with _ | s
  · simp [handleDocumentGet, hx, createErrorResult]
  · rcases hy : (args.lookup "id").bind GoVal.asString with _ | sid
    · simp [handleDocumentGet, hx, hy, createErrorResult]
    · simp [handleDocumentGet, hx, hy, errClient, createErrorResult]

lemma handleDocumentUpdate_errClient (e : String) (args : Args) :
    (handleDocumentUpdate (errClient e) args).1.IsError = true := by
  rcases hx : (args.lookup "index").bind GoVal.asString with _ | s
  · simp [handleDocumentUpdate, hx, createErrorResult]
  · rcases hy : (args.lookup "id").bind GoVal.asString with _ | sid
    · simp [handleDocumentUpdate, hx, hy, createErrorResult]
    · rcases hz : (args.lookup "body").bind GoVal.asObj with _ | b
      · simp [handleDocumentUpdate, hx, hy, hz, createErrorResult]
      · simp [handleDocumentUpdate, hx, hy, hz, errClient, createErrorResult]

lemma handleDocumentDelete_errClient (e : String) (args : Args) :
    (handleDocumentDelete (errClient e) args).1.IsError = true := by
  rcases hx : (args.lookup "index").bind GoVal.asString with _ | s
  · simp [handleDocumentDelete, hx, createErrorResult]
  · rcases hy : (args.lookup "id").bind GoVal.asString with _ | sid
    · simp [handleDocumentDelete, hx, hy, createErrorResult]
    · simp [handleDocumentDelete, hx, hy, errClient, createErrorResult]

lemma handleSearch_errClient (e : String) (args : Args) :
    (handleSearch (errClient e) args).1.IsError = true := by
  simp [handleSearch, errClient, createErrorResult]

lemma handleBulk_errClient (e : String) (args : Args) :
    (handleBulk (errClient e) args).1.IsError = true := by
  rcases hx : (args.lookup "operations").bind GoVal.asArr with _ | ops
  · simp [handleBulk, hx, createErrorResult]
  · simp [handleBulk, hx, errClient, createErrorResult]

/-- A bulk argument map with three operations where the second lacks its
`index` field: the instance named by the spec's bulk test. -/
def bulkArgsC1 : Args :=
  [("operations", GoVal.arr
    [GoVal.obj [("operation", GoVal.str "index"), ("index", GoVal.str "idx"),
                ("id", GoVal.str "1"), ("body", GoVal.obj [("a", GoVal.num 1)])],
     GoVal.obj [("operation", GoVal.str "index"), ("body", GoVal.obj [("b", GoVal.num 2)])],
     GoVal.obj [("operation", GoVal.str "delete"), ("index", GoVal.str "idx"),
                ("id", GoVal.str "2")]])]

/-- C1, counterexample: with three bulk operations where the second lacks its
`index` field, dispatch is not error-flagged (against a succeeding engine
stub) and the Engine Client's Bulk operation IS invoked, with the full batch
in which the second operation simply carries an empty index — refuting the
claimed all-or-nothing abort. -/
theorem spec_C1_counterexample :
    (HandleTool okClient "es_bulk" bulkArgsC1).1.IsError = false ∧
    (HandleTool okClient "es_bulk" bulkArgsC1).2 =
      [EngineCall.bulk
        [{ Operation := "index", Index := "idx", Type_ := "", ID := "1",
           Body := some [("a", GoVal.num 1)] },
         { Operation := "index", Index := "", Type_ := "", ID := "",
           Body := some [("b", GoVal.num 2)] },
         { Operation := "delete", Index := "idx", Type_ := "", ID := "2",
           Body := none }]] :=
  ⟨rfl, rfl⟩

/-- C1, amended: translation of a present `operations` array never aborts —
whatever malformed elements it contains, the Engine Client's Bulk operation is
invoked exactly once with a batch of the same length in which each element
that is not an object has been replaced by the zero-valued bulk operation, and
the envelope is error-flagged exactly when the engine's Bulk call fails. -/
theorem spec_C1 (et : Client) (ops : List GoVal) :
    (HandleTool et "es_bulk" [("operations", GoVal.arr ops)]).2 =
      [EngineCall.bulk (ops.map toBulkOp)] ∧
    (ops.map toBulkOp).length = ops.length ∧
    ((HandleTool et "es_bulk" [("operations", GoVal.arr ops)]).1.IsError = true ↔
      ∃ e, et.Bulk (ops.map toBulkOp) = .error e) ∧
    (∀ op ∈ ops, op.asObj = none → toBulkOp op = zeroBulkOperation) := by
  have h1 : HandleTool et "es_bulk" [("operations", GoVal.arr ops)] =
      (match et.Bulk (ops.map toBulkOp) with
        | .error err => (createErrorResult ("Failed to execute bulk operations: " ++ err),
            [EngineCall.bulk (ops.map toBulkOp)])
        | .ok result => (createSuccessResult "Bulk operations executed successfully" (some result),
            [EngineCall.bulk (ops.map toBulkOp)])) := rfl
  refine ⟨?_, by simp, ?_, ?_⟩
  · rw [h1]
    rcases hb : et.Bulk (ops.map toBulkOp) with e | r <;> simp [hb]
  · rw [h1]
    rcases hb : et.Bulk (ops.map toBulkOp) with e | r
    · simp [hb, createErrorResult]
    · simp [hb, createSuccessResult_isError]
  · intro op _ hobj
    simp [toBulkOp, hobj]

/-- Witness for C1 at a concrete non-object operation against the ok stub. -/
theorem spec_C1_witness :
    ((HandleTool okClient "es_bulk" [("operations", GoVal.arr [GoVal.str "x"])]).2 =
      [EngineCall.bulk [zeroBulkOperation]]) ∧
    (GoVal.asObj (GoVal.str "x") = none) ∧
    (toBulkOp (GoVal.str "x") = zeroBulkOperation) := by
  have h := spec_C1 okClient [GoVal.str "x"]
  exact ⟨h.1.trans rfl, rfl, h.2.2.2 (GoVal.str "x") (by simp) rfl⟩

/-- C2, code evaluation at the failing input: with size and from both present
as (JSON-decoded, hence float64) numbers 5.0 and 2.0, the translator passes
Size 5 but From 0 to the Engine Client — the `from` argument is dropped
because it is type-asserted as int64, which never holds for a JSON-decoded
number, while `size` is correctly asserted as float64 and truncated. -/
theorem spec_C2_code_eval :
    (HandleTool okClient "es_search" [("size", GoVal.num 5), ("from", GoVal.num 2)]).2 =
      [EngineCall.search
        { Index := "", Query := matchAllQuery, Size := 5, From := 0,
          Sort_ := none, Source := none }] := rfl

/-- C3: dispatching es_search with an empty argument map passes the Engine
Client a SearchRequest with the match-all query, Size 10 and From 0, and the
envelope is not error-flagged when the engine search succeeds. -/
theorem spec_C3 (et : Client) (r : GoVal)
    (h : et.Search { Index := "", Query := matchAllQuery, Size := 10, From := 0,
                     Sort_ := none, Source := none } = .ok r) :
    HandleTool et "es_search" [] =
      (createSuccessResult "Search executed successfully" (some r),
        [EngineCall.search
          { Index := "", Query := matchAllQuery, Size := 10, From := 0,
            Sort_ := none, Source := none }]) ∧
    (HandleTool et "es_search" []).1.IsError = false := by
  have h1 : HandleTool et "es_search" [] =
      (match et.Search { Index := "", Query := matchAllQuery, Size := 10, From := 0,
                         Sort_ := none, Source := none } with
        | .error err =>
            (createErrorResult ("Failed to execute search: " ++ err),
              [EngineCall.search
                { Index := "", Query := matchAllQuery, Size := 10, From := 0,
                  Sort_ := none, Source := none }])
        | .ok result =>
            (createSuccessResult "Search executed successfully" (some result),
              [EngineCall.search
                { Index := "", Query := matchAllQuery, Size := 10, From := 0,
                  Sort_ := none, Source := none }])) := rfl
  rw [h1, h]
  exact ⟨rfl, createSuccessResult_isError _ _⟩

/-- Witness for C3 at the ok stub client. -/
theorem spec_C3_witness :
    (okClient.Search { Index := "", Query := matchAllQuery, Size := 10, From := 0,
                       Sort_ := none, Source := none } = .ok GoVal.null) ∧
    HandleTool okClient "es_search" [] =
      (createSuccessResult "Search executed successfully" (some GoVal.null),
        [EngineCall.search
          { Index := "", Query := matchAllQuery, Size := 10, From := 0,
            Sort_ := none, Source := none }]) := by
  refine ⟨rfl, ?_⟩
  exact (spec_C3 okClient GoVal.null rfl).1

/-- C8: the envelope builder wraps a sequence payload as an object with `data`
and `count` fields, and the es_index_list result carries a list-with-count
wrapper whose count equals the number of indices the Engine Client returned. -/
theorem spec_C8 :
    (∀ (text : String) (v : List GoVal),
      createSuccessResult text (some (GoVal.arr v)) =
        { Content := [text],
          StructuredContent :=
            some (.obj [("data", .arr v), ("count", .num ((v.length : Int) : ℚ))]),
          IsError := false }) ∧
    (∀ (et : Client) (args : Args) (indices : List GoVal),
      et.ListIndices = .ok indices →
      HandleTool et "es_index_list" args =
        (createSuccessResult ("Found " ++ toString indices.length ++ " indices")
          (some (.obj [("indices", .arr indices),
                       ("count", .num ((indices.length : Int) : ℚ))])),
          [EngineCall.listIndices])) := by
  constructor
  · intro text v
    rfl
  · intro et args indices h
    have h1 : HandleTool et "es_index_list" args =
        (match et.ListIndices with
          | .error err => (createErrorResult ("Failed to list indices: " ++ err),
              [EngineCall.listIndices])
          | .ok indices =>
              (createSuccessResult ("Found " ++ toString indices.length ++ " indices")
                (some (.obj [("indices", .arr indices),
                             ("count", .num ((indices.length : Int) : ℚ))])),
                [EngineCall.listIndices])) := rfl
    rw [h1, h]

/-- Witness for C8 at a one-index stub client. -/
theorem spec_C8_witness :
    (listClient.ListIndices = .ok [GoVal.null]) ∧
    HandleTool listClient "es_index_list" [] =
      (createSuccessResult ("Found " ++ toString (1 : Nat) ++ " indices")
        (some (.obj [("indices", .arr [GoVal.null]),
                     ("count", .num (((1 : Nat) : Int) : ℚ))])),
        [EngineCall.listIndices]) := by
  refine ⟨rfl, ?_⟩
  exact spec_C8.2 listClient [] [GoVal.null] rfl

/-- C9: es_index_delete against an engine that reports 404 for the deletion
still yields a success envelope — deleting an absent index is success. -/
theorem spec_C9 (et : Client) (m : String) (res : EsapiResponse)
    (h404 : res.StatusCode = 404)
    (hcl : et.DeleteIndex m = ESClient.DeleteIndex (.ok res)) :
    HandleTool et "es_index_delete" [("index", GoVal.str m)] =
      (createSimpleSuccessResult ("Index '" ++ m ++ "' deleted successfully"),
        [EngineCall.deleteIndex m]) ∧
    (HandleTool et "es_index_delete" [("index", GoVal.str m)]).1.IsError = false := by
  have hdel : ESClient.DeleteIndex (.ok res) = .ok () := by
    simp [ESClient.DeleteIndex, h404]
  have h1 : HandleTool et "es_index_delete" [("index", GoVal.str m)] =
      (match et.DeleteIndex m with
        | .error err => (createErrorResult ("Failed to delete index: " ++ err),
            [EngineCall.deleteIndex m])
        | .ok _ => (createSimpleSuccessResult ("Index '" ++ m ++ "' deleted successfully"),
            [EngineCall.deleteIndex m])) := rfl
  rw [h1, hcl, hdel]
  exact ⟨rfl, rfl⟩

/-- Witness for C9 at the 404-reporting stub client. -/
theorem spec_C9_witness :
    (resp404.StatusCode = 404) ∧
    (notFound404Client.DeleteIndex "missing" = ESClient.DeleteIndex (.ok resp404)) ∧
    (HandleTool notFound404Client "es_index_delete"
      [("index", GoVal.str "missing")]).1.IsError = false := by
  exact ⟨rfl, rfl, (spec_C9 notFound404Client "missing" resp404 rfl rfl).2⟩

/-- C10: a 404 from the engine on document deletion still yields a success
envelope whose summary contains `deleted successfully`, while es_document_get
for the same absent document yields an error-flagged envelope. -/
theorem spec_C10 (et : Client) (i d : String) (res res' : EsapiResponse)
    (h404 : res.StatusCode = 404) (h404' : res'.StatusCode = 404)
    (hdel : et.Delete i d = ESClient.Delete (.ok res))
    (hget : et.Get i d = ESClient.Get (.ok res')) :
    (HandleTool et "es_document_delete" [("index", GoVal.str i), ("id", GoVal.str d)] =
      (createSimpleSuccessResult
        ("Document '" ++ d ++ "' deleted successfully from index '" ++ i ++ "'"),
        [EngineCall.deleteDoc i d])) ∧
    textContains
      (summaryText
        (HandleTool et "es_document_delete"
          [("index", GoVal.str i), ("id", GoVal.str d)]).1)
      "deleted successfully" ∧
    (HandleTool et "es_document_get"
      [("index", GoVal.str i), ("id", GoVal.str d)]).1.IsError = true := by
  have hdelOk : ESClient.Delete (.ok res) = .ok () := by
    simp [ESClient.Delete, h404]
  have hgetErr : ESClient.Get (.ok res') = .error "document not found" := by
    simp [ESClient.Get, EsapiResponse.IsError, h404']
  have h1 : HandleTool et "es_document_delete" [("index", GoVal.str i), ("id", GoVal.str d)] =
      (match et.Delete i d with
        | .error err => (createErrorResult ("Failed to delete document: " ++ err),
            [EngineCall.deleteDoc i d])
        | .ok _ => (createSimpleSuccessResult
            ("Document '" ++ d ++ "' deleted successfully from index '" ++ i ++ "'"),
            [EngineCall.deleteDoc i d])) := rfl
  have h2 : HandleTool et "es_document_get" [("index", GoVal.str i), ("id", GoVal.str d)] =
      (match et.Get i d with
        | .error err => (createErrorResult ("Failed to get document: " ++ err),
            [EngineCall.getDoc i d])
        | .ok result => (createSuccessResult "Document retrieved successfully" (some result),
            [EngineCall.getDoc i d])) := rfl
  rw [h1, hdel, hdelOk, h2, hget, hgetErr]
  refine ⟨rfl, ?_, rfl⟩
  refine ⟨"Document '" ++ d ++ "' ", " from index '" ++ i ++ "'", ?_⟩
  show "Document '" ++ d ++ "' deleted successfully from index '" ++ i ++ "'" = _
  simp only [String.append_assoc]
  have hx : ∀ X : String,
      "' deleted successfully from index '" ++ X =
        "' " ++ ("deleted successfully" ++ (" from index '" ++ X)) := by
    intro X
    rw [← String.append_assoc, ← String.append_assoc]
    rfl
  rw [hx]

/-- C4: a call to a tool with a required field whose argument map lacks that
field or supplies it with the wrong shape yields an error-flagged envelope
naming an offending field, and no Engine Client operation is invoked. -/
theorem spec_C4 (tool : String) (args : Args) (et : Client)
    (h : ∃ p ∈ requiredSpec tool, badField args p = true) :
    (HandleTool et tool args).1.IsError = true ∧
    (HandleTool et tool args).2 = [] ∧
    ∃ p ∈ requiredSpec tool, badField args p = true ∧
      (HandleTool et tool args).1 =
        createErrorResult ("Missing or invalid '" ++ p.1 ++ "' parameter") := by
  rcases eq_or_ne tool "es_index_create" with rfl | hn1
  · have e : requiredSpec "es_index_create" = [("index", FieldShape.string)] := rfl
    rw [e] at h ⊢
    have hb : badField args ("index", FieldShape.string) = true := by
      rcases h with ⟨p, hp, hbad⟩
      simp at hp
      rwa [hp] at hbad
    have hsf : shapeOk (args.lookup "index") FieldShape.string = false := by
      simpa [badField] using hb
    have hred : HandleTool et "es_index_create" args =
        (createErrorResult "Missing or invalid 'index' parameter", []) :=
      handleIndexCreate_noIndex et args (shapeOk_string_false hsf)
    rw [hred]
    exact ⟨rfl, rfl, ⟨("index", FieldShape.string), by simp, hb, rfl⟩⟩
  rcases eq_or_ne tool "es_index_delete" with rfl | hn2
  · have e : requiredSpec "es_index_delete" = [("index", FieldShape.string)] := rfl
    rw [e] at h ⊢
    have hb : badField args ("index", FieldShape.string) = true := by
      rcases h with ⟨p, hp, hbad⟩
      simp at hp
      rwa [hp] at hbad
    have hsf : shapeOk (args.lookup "index") FieldShape.string = false := by
      simpa [badField] using hb
    have hred : HandleTool et "es_index_delete" args =
        (createErrorResult "Missing or invalid 'index' parameter", []) :=
      handleIndexDelete_noIndex et args (shapeOk_string_false hsf)
    rw [hred]
    exact ⟨rfl, rfl, ⟨("index", FieldShape.string), by simp, hb, rfl⟩⟩
  rcases eq_or_ne tool "es_index_exists" with rfl | hn3
  · have e : requiredSpec "es_index_exists" = [("index", FieldShape.string)] := rfl
    rw [e] at h ⊢
    have hb : badField args ("index", FieldShape.string) = true := by
      rcases h with ⟨p, hp, hbad⟩
      simp at hp
      rwa [hp] at hbad
    have hsf : shapeOk (args.lookup "index") FieldShape.string = false := by
      simpa [badField] using hb
    have hred : HandleTool et "es_index_exists" args =
        (createErrorResult "Missing or invalid 'index' parameter", []) :=
      handleIndexExists_noIndex et args (shapeOk_string_false hsf)
    rw [hred]
    exact ⟨rfl, rfl, ⟨("index", FieldShape.string), by simp, hb, rfl⟩⟩
  rcases eq_or_ne tool "es_document_index" with rfl | hn4
  · have e : requiredSpec "es_document_index" =
        [("index", FieldShape.string), ("body", FieldShape.object)] := rfl
    rw [e] at h ⊢
    by_cases hidx : shapeOk (args.lookup "index") FieldShape.string = true
    · obtain ⟨s, hs⟩ := shapeOk_string_true hidx
      have hbodyF : shapeOk (args.lookup "body") FieldShape.object = false := by
        rcases h with ⟨p, hp, hbad⟩
        simp at hp
        rcases hp with hp | hp
        · rw [hp] at hbad
          simp [badField, hidx] at hbad
        · rw [hp] at hbad
          simpa [badField] using hbad
      have hred : HandleTool et "es_document_index" args =
          (createErrorResult "Missing or invalid 'body' parameter", []) :=
        handleDocumentIndex_noBody et args hs (shapeOk_object_false hbodyF)
      rw [hred]
      exact ⟨rfl, rfl, ⟨("body", FieldShape.object), by simp, by simp [badField, hbodyF], rfl⟩⟩
    · have hsf : shapeOk (args.lookup "index") FieldShape.string = false := by
        simpa using hidx
      have hred : HandleTool et "es_document_index" args =
          (createErrorResult "Missing or invalid 'index' parameter", []) :=
        handleDocumentIndex_noIndex et args (shapeOk_string_false hsf)
      rw [hred]
      exact ⟨rfl, rfl, ⟨("index", FieldShape.string), by simp, by simp [badField, hsf], rfl⟩⟩
  rcases eq_or_ne tool "es_document_get" with rfl | hn5
  · have e : requiredSpec "es_document_get" =
        [("index", FieldShape.string), ("id", FieldShape.string)] := rfl
    rw [e] at h ⊢
    by_cases hidx : shapeOk (args.lookup "index") FieldShape.string = true
    · obtain ⟨s, hs⟩ := shapeOk_string_true hidx
      have hidF : shapeOk (args.lookup "id") FieldShape.string = false := by
        rcases h with ⟨p, hp, hbad⟩
        simp at hp
        rcases hp with hp | hp
        · rw [hp] at hbad
          simp [badField, hidx] at hbad
        · rw [hp] at hbad
          simpa [badField] using hbad
      have hred : HandleTool et "es_document_get" args =
          (createErrorResult "Missing or invalid 'id' parameter", []) :=
        handleDocumentGet_noId et args hs (shapeOk_string_false hidF)
      rw [hred]
      exact ⟨rfl, rfl, ⟨("id", FieldShape.string), by simp, by simp [badField, hidF], rfl⟩⟩
    · have hsf : shapeOk (args.lookup "index") FieldShape.string = false := by
        simpa using hidx
      have hred : HandleTool et "es_document_get" args =
          (createErrorResult "Missing or invalid 'index' parameter", []) :=
        handleDocumentGet_noIndex et args (shapeOk_string_false hsf)
      rw [hred]
      exact ⟨rfl, rfl, ⟨("index", FieldShape.string), by simp, by simp [badField, hsf], rfl⟩⟩
  rcases eq_or_ne tool "es_document_update" with rfl | hn6
  · have e : requiredSpec "es_document_update" =
        [("index", FieldShape.string), ("id", FieldShape.string),
         ("body", FieldShape.object)] := rfl
    rw [e] at h ⊢
    by_cases hidx : shapeOk (args.lookup "index") FieldShape.string = true
    · obtain ⟨s, hs⟩ := shapeOk_string_true hidx
      by_cases hid : shapeOk (args.lookup "id") FieldShape.string = true
      · obtain ⟨sid, hsid⟩ := shapeOk_string_true hid
        have hbodyF : shapeOk (args.lookup "body") FieldShape.object = false := by
          rcases h with ⟨p, hp, hbad⟩
          simp at hp
          rcases hp with hp | hp | hp
          · rw [hp] at hbad
            simp [badField, hidx] at hbad
          · rw [hp] at hbad
            simp [badField, hid] at hbad
          · rw [hp] at hbad
            simpa [badField] using hbad
        have hred : HandleTool et "es_document_update" args =
            (createErrorResult "Missing or invalid 'body' parameter", []) :=
          handleDocumentUpdate_noBody et args hs hsid (shapeOk_object_false hbodyF)
        rw [hred]
        exact ⟨rfl, rfl,
          ⟨("body", FieldShape.object), by simp, by simp [badField, hbodyF], rfl⟩⟩
      · have hidF : shapeOk (args.lookup "id") FieldShape.string = false := by
          simpa using hid
        have hred : HandleTool et "es_document_update" args =
            (createErrorResult "Missing or invalid 'id' parameter", []) :=
          handleDocumentUpdate_noId et args hs (shapeOk_string_false hidF)
        rw [hred]
        exact ⟨rfl, rfl, ⟨("id", FieldShape.string), by simp, by simp [badField, hidF], rfl⟩⟩
    · have hsf : shapeOk (args.lookup "index") FieldShape.string = false := by
        simpa using hidx
      have hred : HandleTool et "es_document_update" args =
          (createErrorResult "Missing or invalid 'index' parameter", []) :=
        handleDocumentUpdate_noIndex et args (shapeOk_string_false hsf)
      rw [hred]
      exact ⟨rfl, rfl, ⟨("index", FieldShape.string), by simp, by simp [badField, hsf], rfl⟩⟩
  rcases eq_or_ne tool "es_document_delete" with rfl | hn7
  · have e : requiredSpec "es_document_delete" =
        [("index", FieldShape.string), ("id", FieldShape.string)] := rfl
    rw [e] at h ⊢
    by_cases hidx : shapeOk (args.lookup "index") FieldShape.string = true
    · obtain ⟨s, hs⟩ := shapeOk_string_true hidx
      have hidF : shapeOk (args.lookup "id") FieldShape.string = false := by
        rcases h with ⟨p, hp, hbad⟩
        simp at hp
        rcases hp with hp | hp
        · rw [hp] at hbad
          simp [badField, hidx] at hbad
        · rw [hp] at hbad
          simpa [badField] using hbad
      have hred : HandleTool et "es_document_delete" args =
          (createErrorResult "Missing or invalid 'id' parameter", []) :=
        handleDocumentDelete_noId et args hs (shapeOk_string_false hidF)
      rw [hred]
      exact ⟨rfl, rfl, ⟨("id", FieldShape.string), by simp, by simp [badField, hidF], rfl⟩⟩
    · have hsf : shapeOk (args.lookup "index") FieldShape.string = false := by
        simpa using hidx
      have hred : HandleTool et "es_document_delete" args =
          (createErrorResult "Missing or invalid 'index' parameter", []) :=
        handleDocumentDelete_noIndex et args (shapeOk_string_false hsf)
      rw [hred]
      exact ⟨rfl, rfl, ⟨("index", FieldShape.string), by simp, by simp [badField, hsf], rfl⟩⟩
  rcases eq_or_ne tool "es_bulk" with rfl | hn8
  · have e : requiredSpec "es_bulk" = [("operations", FieldShape.array)] := rfl
    rw [e] at h ⊢
    have hb : badField args ("operations", FieldShape.array) = true := by
      rcases h with ⟨p, hp, hbad⟩
      simp at hp
      rwa [hp] at hbad
    have hsf : shapeOk (args.lookup "operations") FieldShape.array = false := by
      simpa [badField] using hb
    have hred : HandleTool et "es_bulk" args =
        (createErrorResult "Missing or invalid 'operations' parameter", []) :=
      handleBulk_noOps et args (shapeOk_array_false hsf)
    rw [hred]
    exact ⟨rfl, rfl, ⟨("operations", FieldShape.array), by simp, hb, rfl⟩⟩
  exfalso
  have e0 : requiredSpec tool = [] := by
    simp [requiredSpec, hn1, hn2, hn3, hn4, hn5, hn6, hn7, hn8]
  rw [e0] at h
  simp at h

/-- Witness for C4: es_index_create called with an empty argument map. -/
theorem spec_C4_witness :
    (∃ p ∈ requiredSpec "es_index_create", badField [] p = true) ∧
    (HandleTool okClient "es_index_create" []).1.IsError = true ∧
    (HandleTool okClient "es_index_create" []).2 = [] := by
  have h : ∃ p ∈ requiredSpec "es_index_create", badField [] p = true := by decide
  have h2 := spec_C4 "es_index_create" [] okClient h
  exact ⟨h, h2.1, h2.2.1⟩

/-- C5: dispatch is total — every call yields exactly one result envelope —
and every per-call failure is returned as data: against an engine on which
every operation fails every call is error-flagged, and an unknown tool name is
error-flagged for every client. -/
theorem spec_C5 (toolName : String) (args : Args) :
    (∀ et : Client, ∃! r, HandleTool et toolName args = r) ∧
    (∀ e : String, (HandleTool (errClient e) toolName args).1.IsError = true) ∧
    (∀ et : Client, toolName ∉ toolNames →
      (HandleTool et toolName args).1.IsError = true) := by
  refine ⟨fun et => ⟨HandleTool et toolName args, rfl, fun r h => h.symm⟩, ?_, ?_⟩
  · intro e
    by_cases hmem : toolName ∈ toolNames
    · simp [toolNames] at hmem
      rcases hmem with rfl | rfl | rfl | rfl | rfl | rfl | rfl | rfl | rfl | rfl | rfl | rfl
      · exact handleClusterInfo_errClient e
      · exact handleClusterHealth_errClient e
      · exact handleIndexCreate_errClient e args
      · exact handleIndexDelete_errClient e args
      · exact handleIndexExists_errClient e args
      · exact handleIndexList_errClient e
      · exact handleDocumentIndex_errClient e args
      · exact handleDocumentGet_errClient e args
      · exact handleDocumentUpdate_errClient e args
      · exact handleDocumentDelete_errClient e args
      · exact handleSearch_errClient e args
      · exact handleBulk_errClient e args
    · rw [handleTool_unknown (errClient e) toolName args hmem]
      rfl
  · intro et hn
    rw [handleTool_unknown et toolName args hn]
    rfl

/-- Witness for C5 at the unregistered name nonexistent_tool. -/
theorem spec_C5_witness :
    (∃! r, HandleTool okClient "nonexistent_tool" [] = r) ∧
    ((HandleTool (errClient "boom") "nonexistent_tool" []).1.IsError = true) ∧
    ("nonexistent_tool" ∉ toolNames) ∧
    ((HandleTool okClient "nonexistent_tool" []).1.IsError = true) := by
  have h := spec_C5 "nonexistent_tool" []
  exact ⟨h.1 okClient, h.2.1 "boom", by decide, h.2.2 okClient (by decide)⟩

/-- C6: dispatch of a name outside the catalog returns the unknown-tool error
envelope whose summary contains `Unknown tool: ` and the name, with no engine
call; and for names inside the catalog, every error-flagged outcome with no
engine call is a translation error naming a parameter — so unknown tool is
the only failure that bypasses argument translation. -/
theorem spec_C6 (toolName : String) (args : Args) (et : Client) :
    (toolName ∉ toolNames →
      HandleTool et toolName args = (createErrorResult ("Unknown tool: " ++ toolName), []) ∧
      textContains (summaryText (HandleTool et toolName args).1)
        ("Unknown tool: " ++ toolName)) ∧
    (toolName ∈ toolNames →
      (HandleTool et toolName args).1.IsError = true →
      (HandleTool et toolName args).2 = [] →
      ∃ f, (HandleTool et toolName args).1 =
        createErrorResult ("Missing or invalid '" ++ f ++ "' parameter")) := by
  constructor
  · intro hn
    have hu := handleTool_unknown et toolName args hn
    refine ⟨hu, ?_⟩
    rw [hu]
    exact ⟨"Error: ", "", (String.append_empty _).symm⟩
  · intro hmem hErr hTr
    simp [toolNames] at hmem
    rcases hmem with rfl | rfl | rfl | rfl | rfl | rfl | rfl | rfl | rfl | rfl | rfl | rfl
    · have h2 : (HandleTool et "es_cluster_info" args).2 = [EngineCall.info] :=
        handleClusterInfo_trace et
      rw [h2] at hTr
      exact absurd hTr (by simp)
    · have h2 : (HandleTool et "es_cluster_health" args).2 = [EngineCall.health] :=
        handleClusterHealth_trace et
      rw [h2] at hTr
      exact absurd hTr (by simp)
    · obtain ⟨f, hf⟩ := handleIndexCreate_translationOnly et args hTr
      exact ⟨f, congrArg Prod.fst hf⟩
    · obtain ⟨f, hf⟩ := handleIndexDelete_translationOnly et args hTr
      exact ⟨f, congrArg Prod.fst hf⟩
    · obtain ⟨f, hf⟩ := handleIndexExists_translationOnly et args hTr
      exact ⟨f, congrArg Prod.fst hf⟩
    · have h2 : (HandleTool et "es_index_list" args).2 = [EngineCall.listIndices] :=
        handleIndexList_trace et
      rw [h2] at hTr
      exact absurd hTr (by simp)
    · obtain ⟨f, hf⟩ := handleDocumentIndex_translationOnly et args hTr
      exact ⟨f, congrArg Prod.fst hf⟩
    · obtain ⟨f, hf⟩ := handleDocumentGet_translationOnly et args hTr
      exact ⟨f, congrArg Prod.fst hf⟩
    · obtain ⟨f, hf⟩ := handleDocumentUpdate_translationOnly et args hTr
      exact ⟨f, congrArg Prod.fst hf⟩
    · obtain ⟨f, hf⟩ := handleDocumentDelete_translationOnly et args hTr
      exact ⟨f, congrArg Prod.fst hf⟩
    · exact absurd hTr (handleSearch_trace_ne et args)
    · obtain ⟨f, hf⟩ := handleBulk_translationOnly et args hTr
      exact ⟨f, congrArg Prod.fst hf⟩

/-- Witness for C6 at the unregistered name nonexistent_tool, and a
registered-name translation failure. -/
theorem spec_C6_witness :
    ("nonexistent_tool" ∉ toolNames) ∧
    (HandleTool okClient "nonexistent_tool" [] =
      (createErrorResult ("Unknown tool: " ++ "nonexistent_tool"), []) ∧
      textContains (summaryText (HandleTool okClient "nonexistent_tool" []).1)
        ("Unknown tool: " ++ "nonexistent_tool")) ∧
    ("es_index_create" ∈ toolNames) ∧
    (∃ f, (HandleTool okClient "es_index_create" []).1 =
      createErrorResult ("Missing or invalid '" ++ f ++ "' parameter")) := by
  have hn : ("nonexistent_tool" : String) ∉ toolNames := by decide
  exact ⟨hn, (spec_C6 "nonexistent_tool" [] okClient).1 hn, by decide,
    (spec_C6 "es_index_create" [] okClient).2 (by decide) rfl rfl⟩

/-- C7, counterexample to the claimed universal: the polymorphic `_source`
argument of es_search is NOT treated as absent when present with a shape the
schema does not allow (here a number, where the schema allows only a boolean,
an array of strings, or an object) — it is forwarded verbatim in the engine
request, so the dispatch outcome differs from the one with `_source` absent. -/
theorem spec_C7_counterexample :
    (HandleTool okClient "es_search" [("_source", GoVal.num 3)]).2 =
      [EngineCall.search
        { Index := "", Query := matchAllQuery, Size := 10, From := 0,
          Sort_ := none, Source := some (GoVal.num 3) }] ∧
    HandleTool okClient "es_search" [("_source", GoVal.num 3)] ≠
      HandleTool okClient "es_search" [] := by
  refine ⟨rfl, ?_⟩
  intro h
  have h2 : [EngineCall.search
      { Index := "", Query := matchAllQuery, Size := 10, From := 0,
        Sort_ := none, Source := some (GoVal.num 3) }] =
    [EngineCall.search
      { Index := "", Query := matchAllQuery, Size := 10, From := 0,
        Sort_ := none, Source := none }] := congrArg (fun p => p.2) h
  simp at h2

/-- C7, amended: every shape-checked optional argument present with the wrong
shape is treated exactly as if it were absent — for es_search a non-number
size, a non-object query, a non-string index, a from that fails its int64
assertion and a non-array sort all leave the documented defaults, for
es_index_create non-object settings and mappings are dropped from the request
body, and for es_document_index a non-string id yields the empty
auto-generation id — and the call still reaches the Engine Client and
succeeds when the engine does; the polymorphic `_source` argument is the
exception, being forwarded whatever its shape. -/
theorem spec_C7 :
    (∀ (et : Client) (v : GoVal), v.asFloat64 = none →
      HandleTool et "es_search" [("size", v)] = HandleTool et "es_search" []) ∧
    (∀ (et : Client) (v : GoVal), v.asObj = none →
      HandleTool et "es_search" [("query", v)] = HandleTool et "es_search" []) ∧
    (∀ (et : Client) (i : String) (v : GoVal), v.asObj = none →
      HandleTool et "es_index_create" [("index", GoVal.str i), ("settings", v)] =
        HandleTool et "es_index_create" [("index", GoVal.str i)]) ∧
    (∀ (et : Client) (i : String) (v : GoVal), v.asObj = none →
      HandleTool et "es_index_create" [("index", GoVal.str i), ("mappings", v)] =
        HandleTool et "es_index_create" [("index", GoVal.str i)]) ∧
    (∀ (et : Client) (v : GoVal), v.asString = none →
      HandleTool et "es_search" [("index", v)] = HandleTool et "es_search" []) ∧
    (∀ (et : Client) (v : GoVal), v.asInt64 = none →
      HandleTool et "es_search" [("from", v)] = HandleTool et "es_search" []) ∧
    (∀ (et : Client) (v : GoVal), v.asArr = none →
      HandleTool et "es_search" [("sort", v)] = HandleTool et "es_search" []) ∧
    (∀ (et : Client) (i : String) (b : List (String × GoVal)) (v : GoVal),
      v.asString = none →
      HandleTool et "es_document_index"
          [("index", GoVal.str i), ("id", v), ("body", GoVal.obj b)] =
        HandleTool et "es_document_index" [("index", GoVal.str i), ("body", GoVal.obj b)]) ∧
    (∀ (et : Client) (i : String) (v : GoVal), v.asObj = none →
      et.CreateIndex i [] = .ok () →
      (HandleTool et "es_index_create"
        [("index", GoVal.str i), ("settings", v)]).1.IsError = false ∧
      (HandleTool et "es_index_create"
        [("index", GoVal.str i), ("settings", v)]).2 = [EngineCall.createIndex i []]) ∧
    (∀ (et : Client) (v : GoVal) (r : GoVal), v.asFloat64 = none →
      et.Search { Index := "", Query := matchAllQuery, Size := 10, From := 0,
                  Sort_ := none, Source := none } = .ok r →
      (HandleTool et "es_search" [("size", v)]).1.IsError = false ∧
      (HandleTool et "es_search" [("size", v)]).2 =
        [EngineCall.search
          { Index := "", Query := matchAllQuery, Size := 10, From := 0,
            Sort_ := none, Source := none }]) := by
  have hsize : ∀ (et : Client) (v : GoVal), v.asFloat64 = none →
      HandleTool et "es_search" [("size", v)] = HandleTool et "es_search" [] := by
    intro et v h
    cases v with
    | num x => simp [GoVal.asFloat64] at h
    | str s => rfl
    | int n => rfl
    | bool b => rfl
    | arr l => rfl
    | obj f => rfl
    | null => rfl
  have hsettings : ∀ (et : Client) (i : String) (v : GoVal), v.asObj = none →
      HandleTool et "es_index_create" [("index", GoVal.str i), ("settings", v)] =
        HandleTool et "es_index_create" [("index", GoVal.str i)] := by
    intro et i v h
    cases v with
    | obj f => simp [GoVal.asObj] at h
    | str s => rfl
    | int n => rfl
    | bool b => rfl
    | arr l => rfl
    | num x => rfl
    | null => rfl
  refine ⟨hsize, ?_, hsettings, ?_, ?_, ?_, ?_, ?_, ?_, ?_⟩
  · intro et v h
    cases v with
    | obj f => simp [GoVal.asObj] at h
    | str s => rfl
    | int n => rfl
    | bool b => rfl
    | arr l => rfl
    | num x => rfl
    | null => rfl
  · intro et i v h
    cases v with
    | obj f => simp [GoVal.asObj] at h
    | str s => rfl
    | int n => rfl
    | bool b => rfl
    | arr l => rfl
    | num x => rfl
    | null => rfl
  · intro et v h
    cases v with
    | str s => simp [GoVal.asString] at h
    | num x => rfl
    | int n => rfl
    | bool b => rfl
    | arr l => rfl
    | obj f => rfl
    | null => rfl
  · intro et v h
    cases v with
    | int n => simp [GoVal.asInt64] at h
    | num x => rfl
    | str s => rfl
    | bool b => rfl
    | arr l => rfl
    | obj f => rfl
    | null => rfl
  · intro et v h
    cases v with
    | arr l => simp [GoVal.asArr] at h
    | num x => rfl
    | str s => rfl
    | bool b => rfl
    | int n => rfl
    | obj f => rfl
    | null => rfl
  · intro et i b v h
    cases v with
    | str s => simp [GoVal.asString] at h
    | num x => rfl
    | int n => rfl
    | bool b => rfl
    | arr l => rfl
    | obj f => rfl
    | null => rfl
  · intro et i v h hok
    rw [hsettings et i v h]
    have h1 : HandleTool et "es_index_create" [("index", GoVal.str i)] =
        (match et.CreateIndex i [] with
          | .error err => (createErrorResult ("Failed to create index: " ++ err),
              [EngineCall.createIndex i []])
          | .ok _ => (createSimpleSuccessResult ("Index '" ++ i ++ "' created successfully"),
              [EngineCall.createIndex i []])) := rfl
    rw [h1, hok]
    exact ⟨rfl, rfl⟩
  · intro et v r h hok
    rw [hsize et v h]
    have h1 : HandleTool et "es_search" [] =
        (match et.Search { Index := "", Query := matchAllQuery, Size := 10, From := 0,
                           Sort_ := none, Source := none } with
          | .error err =>
              (createErrorResult ("Failed to execute search: " ++ err),
                [EngineCall.search
                  { Index := "", Query := matchAllQuery, Size := 10, From := 0,
                    Sort_ := none, Source := none }])
          | .ok result =>
              (createSuccessResult "Search executed successfully" (some result),
                [EngineCall.search
                  { Index := "", Query := matchAllQuery, Size := 10, From := 0,
                    Sort_ := none, Source := none }])) := rfl
    rw [h1, hok]
    exact ⟨createSuccessResult_isError _ _, rfl⟩

/-- Witness for C7 at concrete wrong-shape optionals against the ok stub. -/
theorem spec_C7_witness :
    (GoVal.asFloat64 (GoVal.str "x") = none) ∧
    (HandleTool okClient "es_search" [("size", GoVal.str "x")] =
      HandleTool okClient "es_search" []) ∧
    (GoVal.asObj (GoVal.str "x") = none) ∧
    (HandleTool okClient "es_index_create"
        [("index", GoVal.str "idx"), ("settings", GoVal.str "x")] =
      HandleTool okClient "es_index_create" [("index", GoVal.str "idx")]) ∧
    (GoVal.asString (GoVal.num 7) = none) ∧
    (HandleTool okClient "es_search" [("index", GoVal.num 7)] =
      HandleTool okClient "es_search" []) ∧
    (GoVal.asInt64 (GoVal.num 2) = none) ∧
    (HandleTool okClient "es_search" [("from", GoVal.num 2)] =
      HandleTool okClient "es_search" []) ∧
    (GoVal.asArr (GoVal.str "x") = none) ∧
    (HandleTool okClient "es_search" [("sort", GoVal.str "x")] =
      HandleTool okClient "es_search" []) ∧
    (HandleTool okClient "es_document_index"
        [("index", GoVal.str "idx"), ("id", GoVal.num 7), ("body", GoVal.obj [])] =
      HandleTool okClient "es_document_index"
        [("index", GoVal.str "idx"), ("body", GoVal.obj [])]) ∧
    (okClient.CreateIndex "idx" [] = .ok ()) ∧
    ((HandleTool okClient "es_index_create"
        [("index", GoVal.str "idx"), ("settings", GoVal.str "x")]).1.IsError = false) := by
  have h := spec_C7
  exact ⟨rfl, h.1 okClient (GoVal.str "x") rfl, rfl,
    h.2.2.1 okClient "idx" (GoVal.str "x") rfl,
    rfl, h.2.2.2.2.1 okClient (GoVal.num 7) rfl,
    rfl, h.2.2.2.2.2.1 okClient (GoVal.num 2) rfl,
    rfl, h.2.2.2.2.2.2.1 okClient (GoVal.str "x") rfl,
    h.2.2.2.2.2.2.2.1 okClient "idx" [] (GoVal.num 7) rfl,
    rfl,
    (h.2.2.2.2.2.2.2.2.1 okClient "idx" (GoVal.str "x") rfl rfl).1⟩

/-- Witness for C10 at the 404-reporting stub client. -/
theorem spec_C10_witness :
    (resp404.StatusCode = 404) ∧
    (notFound404Client.Delete "i" "d" = ESClient.Delete (.ok resp404)) ∧
    (notFound404Client.Get "i" "d" = ESClient.Get (.ok resp404)) ∧
    textContains
      (summaryText
        (HandleTool notFound404Client "es_document_delete"
          [("index", GoVal.str "i"), ("id", GoVal.str "d")]).1)
      "deleted successfully" ∧
    (HandleTool notFound404Client "es_document_get"
      [("index", GoVal.str "i"), ("id", GoVal.str "d")]).1.IsError = true := by
  have h := spec_C10 notFound404Client "i" "d" resp404 resp404 rfl rfl rfl rfl
  exact ⟨rfl, rfl, rfl, h.2.1, h.2.2⟩

end McpEs
